import Mathlib

/-!
Verification development for the Plinx request-dispatch pipeline and its
SQL mapper, as a shallow embedding of the Python sources:

  * `plinx/methods.py`        — the `HTTPMethods` enumeration
  * `plinx/status_codes.py`   — the `StatusCodes` enumeration
  * `plinx/utils.py`          — `handle_404`
  * `plinx/applications.py`   — `Plinx.add_route`, `Plinx.find_handler`,
                                `Plinx.handle_request`
  * `plinx/middleware.py`     — `Middleware.add`, `Middleware.handle_request`
  * `plinx/orm/orm.py`        — `Table._get_select_where_sql`, `Database.get`

Modelling conventions:

  * Request paths and route patterns are represented at path-segment
    granularity (`/hello/{name}` becomes `[lit "hello", param "name"]`);
    the external `parse` library that `find_handler` delegates to is
    modelled by `matchSegs`, following the route-table contract: a literal
    segment matches itself, `{name}` captures one non-empty segment, and
    `{name:d}` captures a segment of decimal digits, failing (skipping the
    route) when conversion fails.
  * Python exceptions are modelled by their message string: a handler
    returns the state of the response object after the call, together with
    `Option String` — `some msg` meaning the call raised.
  * The response object model is restricted to the attributes the dispatch
    pipeline reads and writes (`status_code`, `text`); in-place mutation is
    modelled by explicit state passing.
  * String helpers (`lower`, `title`, `replace`, `join`) are defined
    character-by-character over `String.data` so that concrete instances
    reduce by `decide`.
-/

/-- `HTTPMethods` from `plinx/methods.py`: the closed verb enumeration. -/
inductive HTTPMethods
  | GET | HEAD | PUT | DELETE | OPTIONS | POST | PATCH
  deriving DecidableEq, Repr

/-- The `value` of each member of `HTTPMethods` (its string payload). -/
def HTTPMethods.value : HTTPMethods → String
  | .GET => "GET"
  | .HEAD => "HEAD"
  | .PUT => "PUT"
  | .DELETE => "DELETE"
  | .OPTIONS => "OPTIONS"
  | .POST => "POST"
  | .PATCH => "PATCH"

/-- `StatusCodes` from `plinx/status_codes.py`. -/
inductive StatusCodes
  | OK | CREATED | ACCEPTED | NO_CONTENT
  | NOT_MODIFIED
  | BAD_REQUEST | UNAUTHORIZED | FORBIDDEN | NOT_FOUND | METHOD_NOT_ALLOWED
  | NOT_ACCEPTABLE | CONFLICT | GONE | PRECONDITION_FAILED
  | UNSUPPORTED_MEDIA_TYPE | TOO_MANY_REQUESTS | UNAVAILABLE_FOR_LEGAL_REASONS
  | INTERNAL_SERVER_ERROR | NOT_IMPLEMENTED | BAD_GATEWAY
  | SERVICE_UNAVAILABLE | GATEWAY_TIMEOUT | HTTP_VERSION_NOT_SUPPORTED
  deriving DecidableEq, Repr

/-- The numeric `value` of each member of `StatusCodes`. -/
def StatusCodes.val : StatusCodes → Nat
  | .OK => 200
  | .CREATED => 201
  | .ACCEPTED => 202
  | .NO_CONTENT => 204
  | .NOT_MODIFIED => 304
  | .BAD_REQUEST => 400
  | .UNAUTHORIZED => 401
  | .FORBIDDEN => 403
  | .NOT_FOUND => 404
  | .METHOD_NOT_ALLOWED => 405
  | .NOT_ACCEPTABLE => 406
  | .CONFLICT => 409
  | .GONE => 410
  | .PRECONDITION_FAILED => 412
  | .UNSUPPORTED_MEDIA_TYPE => 415
  | .TOO_MANY_REQUESTS => 429
  | .UNAVAILABLE_FOR_LEGAL_REASONS => 451
  | .INTERNAL_SERVER_ERROR => 500
  | .NOT_IMPLEMENTED => 501
  | .BAD_GATEWAY => 502
  | .SERVICE_UNAVAILABLE => 503
  | .GATEWAY_TIMEOUT => 504
  | .HTTP_VERSION_NOT_SUPPORTED => 505

/-- The `name` of each member of `StatusCodes` (Python `member.name`). -/
def StatusCodes.pyName : StatusCodes → String
  | .OK => "OK"
  | .CREATED => "CREATED"
  | .ACCEPTED => "ACCEPTED"
  | .NO_CONTENT => "NO_CONTENT"
  | .NOT_MODIFIED => "NOT_MODIFIED"
  | .BAD_REQUEST => "BAD_REQUEST"
  | .UNAUTHORIZED => "UNAUTHORIZED"
  | .FORBIDDEN => "FORBIDDEN"
  | .NOT_FOUND => "NOT_FOUND"
  | .METHOD_NOT_ALLOWED => "METHOD_NOT_ALLOWED"
  | .NOT_ACCEPTABLE => "NOT_ACCEPTABLE"
  | .CONFLICT => "CONFLICT"
  | .GONE => "GONE"
  | .PRECONDITION_FAILED => "PRECONDITION_FAILED"
  | .UNSUPPORTED_MEDIA_TYPE => "UNSUPPORTED_MEDIA_TYPE"
  | .TOO_MANY_REQUESTS => "TOO_MANY_REQUESTS"
  | .UNAVAILABLE_FOR_LEGAL_REASONS => "UNAVAILABLE_FOR_LEGAL_REASONS"
  | .INTERNAL_SERVER_ERROR => "INTERNAL_SERVER_ERROR"
  | .NOT_IMPLEMENTED => "NOT_IMPLEMENTED"
  | .BAD_GATEWAY => "BAD_GATEWAY"
  | .SERVICE_UNAVAILABLE => "SERVICE_UNAVAILABLE"
  | .GATEWAY_TIMEOUT => "GATEWAY_TIMEOUT"
  | .HTTP_VERSION_NOT_SUPPORTED => "HTTP_VERSION_NOT_SUPPORTED"

/-- Python `str.lower()`, character by character. -/
def pyLower (s : String) : String := ⟨s.data.map Char.toLower⟩

/-- Python `str.replace("_", " ")`: a single-character substitution. -/
def replaceUnderscores (s : String) : String :=
  ⟨s.data.map fun c => if c = '_' then ' ' else c⟩

/-- Helper for `pyTitle`: upper-case a letter not preceded by a letter,
lower-case a letter preceded by one. -/
def titleAux : Bool → List Char → List Char
  | _, [] => []
  | prevAlpha, c :: cs =>
      (if c.isAlpha then (if prevAlpha then c.toLower else c.toUpper) else c)
        :: titleAux c.isAlpha cs

/-- Python `str.title()`. -/
def pyTitle (s : String) : String := ⟨titleAux false s.data⟩

/-- Python `sep.join(parts)`. -/
def pyJoin (sep : String) : List String → String
  | [] => ""
  | [x] => x
  | x :: xs => x ++ sep ++ pyJoin sep xs

/-- The request surface the pipeline reads (`webob.Request`): its HTTP
method string and its path, represented as slash-separated segments. -/
structure Request where
  method : String
  path : List String
  deriving DecidableEq, Repr

/-- `PlinxResponse` from `plinx/response.py`, restricted to the attributes
the dispatch pipeline touches: `status_code` (default 200) and `text`
(default `None`). -/
structure Response where
  status_code : Nat
  text : Option String
  deriving DecidableEq, Repr

/-- A fresh `PlinxResponse()` as built by `handle_request`. -/
def Response.init : Response := { status_code := 200, text := none }

/-- `handle_404` from `plinx/utils.py`: status `NOT_FOUND.value`, text
`NOT_FOUND.name.replace("_", " ").title()`. -/
def handle_404 (response : Response) : Response :=
  { response with
      status_code := StatusCodes.NOT_FOUND.val,
      text := some (pyTitle (replaceUnderscores StatusCodes.NOT_FOUND.pyName)) }

/-- One segment of a route pattern: a literal, an untyped placeholder
`\x7bname\x7d`, or a digits-typed placeholder `\x7bname:d\x7d`. -/
inductive Segment
  | lit (s : String)
  | param (name : String)
  | paramD (name : String)
  deriving DecidableEq, Repr

/-- A captured path parameter: a string for `\x7bname\x7d`, a number for
`\x7bname:d\x7d`. -/
inductive ParamValue
  | str (s : String)
  | int (n : Nat)
  deriving DecidableEq, Repr

/-- Named parameters extracted from a matched path. -/
abbrev Params := List (String × ParamValue)

/-- Decimal conversion of one path segment: succeeds exactly on non-empty
all-digit segments (the `d` converter of the `parse` library). -/
def parseD (s : String) : Option Nat :=
  if s.data ≠ [] ∧ s.data.all Char.isDigit
  then some (s.data.foldl (fun a c => a * 10 + (c.toNat - 48)) 0)
  else none

/-- Structural pattern matching of a route pattern against a path, the
model of `parse(path, request.path)` in `find_handler`: literals match
themselves, `\x7bname\x7d` captures one non-empty segment, `\x7bname:d\x7d`
captures a digits segment via `parseD` and fails — skipping the route —
when conversion fails. -/
def matchSegs : List Segment → List String → Option Params
  | [], [] => some []
  | Segment.lit s :: ps, seg :: rest =>
      if seg = s then matchSegs ps rest else none
  | Segment.param n :: ps, seg :: rest =>
      if seg = "" then none
      else (matchSegs ps rest).map fun named => (n, ParamValue.str seg) :: named
  | Segment.paramD n :: ps, seg :: rest =>
      match parseD seg with
      | some k => (matchSegs ps rest).map fun named => (n, ParamValue.int k) :: named
      | none => none
  | _, _ => none

/-- Render a pattern back to its literal string form, for the duplicate
registration error message. -/
def Segment.render : Segment → String
  | .lit s => s
  | .param n => "\x7b" ++ n ++ "\x7d"
  | .paramD n => "\x7b" ++ n ++ ":d\x7d"

/-- Render a whole pattern, e.g. `[lit "math", param "op"]` to `/math/\x7bop\x7d`. -/
def renderPattern : List Segment → String
  | [] => "/"
  | segs => String.join (segs.map fun s => "/" ++ s.render)

/-- A handler invocation: given the request, the current state of the
response object and the extracted keyword arguments, it yields the state
of the response object after the call together with `some message` when
the call raised an exception (modelled by its message string). -/
abbrev HandlerFn := Request → Response → Params → Response × Option String

/-- The three handler shapes `handle_request` distinguishes:
`inspect.isclass` handlers (class-based views, a table from lower-cased
attribute name to the bound method), `inspect.isfunction` handlers (plain
functions), and callables that are neither (bound methods,
`functools.partial`, callable instances). -/
inductive Handler
  | cls (methods : List (String × HandlerFn))
  | function (body : HandlerFn)
  | other (body : HandlerFn)

/-- One entry of `Plinx.routes`: the dict key (pattern) and value
(method, handler). -/
structure Route where
  pattern : List Segment
  method : HTTPMethods
  handler : Handler

/-- The application state `handle_request` reads: the route table in
registration order (`self.routes`, an insertion-ordered dict) and the
optional exception handler (`self.exception_handler`). -/
structure App where
  routes : List Route
  exception_handler : Option (Request → Response → String → Response)

/-- `Plinx.add_route`: raises `RuntimeError` if the pattern is already a
key of the route table — regardless of the method — and otherwise appends
the new entry. -/
def add_route (routes : List Route) (path : List Segment) (handler : Handler)
    (method : HTTPMethods) : Except String (List Route) :=
  if routes.any fun r => r.pattern = path then
    Except.error ("Route " ++ renderPattern path ++ " is already registered.")
  else
    Except.ok (routes ++ [{ pattern := path, method := method, handler := handler }])

/-- The `app.route(path)` decorator: delegates to `add_route` with the
default method `GET`. -/
def route_decorator (routes : List Route) (path : List Segment) (handler : Handler) :
    Except String (List Route) :=
  add_route routes path handler HTTPMethods.GET

/-- The per-verb decorators (`app.get`, `app.post`, ...): delegate to
`add_route` binding the verb. -/
def method_decorator (method : HTTPMethods) (routes : List Route)
    (path : List Segment) (handler : Handler) : Except String (List Route) :=
  add_route routes path handler method

/-- `Plinx.find_handler`: iterate `self.routes` in insertion order and
return the first entry whose pattern parses against the request path,
with its named parameters; `none` models the `(None, None)` miss. -/
def find_handler (routes : List Route) (request : Request) :
    Option ((HTTPMethods × Handler) × Params) :=
  match routes with
  | [] => none
  | r :: rest =>
      match matchSegs r.pattern request.path with
      | some named => some ((r.method, r.handler), named)
      | none => find_handler rest request

/-- The `try` body plus `except` clause of `Plinx.handle_request` around
the handler call: on an exception, delegate to `self.exception_handler`
when registered, else set status `INTERNAL_SERVER_ERROR.value` and text
`str(e)`. -/
def runGuarded (app : App) (request : Request) (body : HandlerFn)
    (response : Response) (kwargs : Params) : Response :=
  match body request response kwargs with
  | (resp, none) => resp
  | (resp, some e) =>
      match app.exception_handler with
      | some h => h request resp e
      | none =>
          { resp with
              status_code := StatusCodes.INTERNAL_SERVER_ERROR.val,
              text := some e }

/-- The branch of `Plinx.handle_request` taken once `find_handler`
returned a definition: class-based views look up the lower-cased request
method on the instance (405 when absent — the registered method is never
consulted); plain functions compare the request method against the
registered method value (405 on mismatch); any other callable is invoked
directly, both checks skipped. -/
def dispatchEntry (app : App) (request : Request) (response : Response)
    (entry : HTTPMethods × Handler) (kwargs : Params) : Response :=
  match entry with
  | (method, handler) =>
    match handler with
    | .cls methods =>
        match methods.lookup (pyLower request.method) with
        | none =>
            { response with
                status_code := StatusCodes.METHOD_NOT_ALLOWED.val,
                text := some "Method Not Allowed" }
        | some body => runGuarded app request body response kwargs
    | .function body =>
        if request.method ≠ method.value then
          { response with
              status_code := StatusCodes.METHOD_NOT_ALLOWED.val,
              text := some "Method Not Allowed" }
        else runGuarded app request body response kwargs
    | .other body => runGuarded app request body response kwargs

/-- `Plinx.handle_request`: build a fresh response, find a handler, and
either dispatch to it or — on a routing miss — return the `handle_404`
response. -/
def handle_request (app : App) (request : Request) : Response :=
  match find_handler app.routes request with
  | some (entry, kwargs) => dispatchEntry app request Response.init entry kwargs
  | none => handle_404 Response.init

/-!
## Middleware chain (`plinx/middleware.py`)

`Middleware.add` rewraps `self.app` (`self.app = middleware_cls(self.app)`),
so the last-added layer becomes outermost.  `Middleware.handle_request`
runs `process_request(request)`, delegates inward, runs
`process_response(request, response)` — whose return value it discards —
and returns the (possibly in-place mutated) response object.

A user layer is modelled by `MWLayer`: `process_request` as the in-place
effect on the request object, and the single `process_response` call split
into its in-place effect on the response object
(`process_response_effect`) and its Python return value
(`process_response_ret`).  Call order is observed through an event trace.
-/

/-- One observable call made by the middleware chain. -/
inductive Event
  | procReq (name : String)
  | handlerCall
  | procResp (name : String)
  deriving DecidableEq, Repr

/-- A user middleware layer: its name (for the trace), the in-place effect
of `process_request` on the request object, and the `process_response`
call split into its in-place effect on the response object and its Python
return value. -/
structure MWLayer where
  name : String
  process_request : Request → Request
  process_response_effect : Request → Response → Response
  process_response_ret : Request → Response → Option Response

/-- The object graph reached from `self.app` of the root `Middleware`:
either the bare `Plinx` application (`core`) or a layer wrapping an inner
chain. -/
inductive MWChain
  | core
  | layer (l : MWLayer) (next : MWChain)

/-- `Middleware.add`: `self.app = middleware_cls(self.app)` — the new
layer wraps the previous chain and becomes outermost. -/
def MWChain.add (c : MWChain) (l : MWLayer) : MWChain :=
  MWChain.layer l c

/-- The chain obtained from the fresh root `Middleware(app)` by a sequence
of `add_middleware` calls in the given order. -/
def buildChain (layers : List MWLayer) : MWChain :=
  layers.foldl MWChain.add MWChain.core

/-- `Middleware.handle_request`, instrumented with an event trace.  The
`core` case is the bare application dispatch, supplied as a function that
returns its own trace and response.  A layer runs `process_request`,
delegates inward, calls `process_response` — keeping its in-place effect
on the response object and discarding its return value, exactly as the
source does (`middleware.py` line 79 ignores the call's value) — and
returns the response object. -/
def runMW (core : Request → List Event × Response) :
    MWChain → Request → List Event × Response
  | MWChain.core, request => core request
  | MWChain.layer l next, request =>
      let request2 := l.process_request request
      let inner := runMW core next request2
      let _ignored := l.process_response_ret request2 inner.2
      (Event.procReq l.name :: inner.1 ++ [Event.procResp l.name],
       l.process_response_effect request2 inner.2)

/-!
## SQL mapper (`plinx/orm/orm.py`)

`Table._get_select_where_sql` builds
`"SELECT {fields} FROM {name} WHERE {query};"` where `fields` is `id`
followed by the table's `Column` members (their names) and `ForeignKey`
members (name plus `_id` suffix) in `inspect.getmembers` order, and
`query` joins one `key = ?` condition per keyword argument with `", "`.
`Database.get` executes exactly that SQL.
-/

/-- A class attribute of a `Table` subclass that `inspect.getmembers`
reports: a `Column` or a `ForeignKey`. -/
inductive FieldKind
  | column
  | foreignKey
  deriving DecidableEq, Repr

/-- A `Table` subclass as the SQL builders see it: the lower-cased class
name and the `Column`/`ForeignKey` members in `inspect.getmembers`
(alphabetical) order. -/
structure TableSchema where
  name : String
  members : List (String × FieldKind)

/-- The `fields` list built by `_get_select_where_sql`: `id`, then each
column name, with `_id` appended to foreign-key names. -/
def selectFields (t : TableSchema) : List String :=
  "id" :: t.members.map fun m =>
    match m.2 with
    | FieldKind.column => m.1
    | FieldKind.foreignKey => m.1 ++ "_id"

/-- `Table._get_select_where_sql(**kwargs)`: the SQL string, the field
names, and the parameter values.  The WHERE conditions `key = ?` are
joined with `", "`. -/
def _get_select_where_sql (t : TableSchema) (kwargs : List (String × String)) :
    String × List String × List String :=
  ("SELECT " ++ pyJoin ", " (selectFields t) ++ " FROM " ++ t.name
     ++ " WHERE " ++ pyJoin ", " (kwargs.map fun kv => kv.1 ++ " = ?") ++ ";",
   selectFields t,
   kwargs.map fun kv => kv.2)

/-- The SQL statement `Database.get` passes to `connection.execute`:
exactly the string produced by `Table._get_select_where_sql`. -/
def Database.get_sql (t : TableSchema) (kwargs : List (String × String)) : String :=
  (_get_select_where_sql t kwargs).1

/-!
## Helper lemmas about `find_handler`
-/

/-- A route whose pattern matches heads the search result. -/
theorem find_handler_cons_match {r : Route} {rest : List Route} {request : Request}
    {params : Params} (h : matchSegs r.pattern request.path = some params) :
    find_handler (r :: rest) request = some ((r.method, r.handler), params) := by
  simp [find_handler, h]

/-- A route whose pattern fails to match is skipped. -/
theorem find_handler_cons_skip {r : Route} {rest : List Route} {request : Request}
    (h : matchSegs r.pattern request.path = none) :
    find_handler (r :: rest) request = find_handler rest request := by
  simp [find_handler, h]

/-- When no registered pattern matches, the search misses. -/
theorem find_handler_eq_none {routes : List Route} {request : Request}
    (h : ∀ r ∈ routes, matchSegs r.pattern request.path = none) :
    find_handler routes request = none := by
  induction routes with
  | nil => rfl
  | cons r rest ih =>
      rw [find_handler_cons_skip (h r (List.mem_cons_self r rest))]
      exact ih fun r2 hr2 => h r2 (List.mem_cons_of_mem r hr2)

/-- The resolution step of `handle_request` once a route is matched: the
concrete callable the dispatch invokes, or `none` when it answers 405. -/
def resolveHandler (request : Request) : HTTPMethods × Handler → Option HandlerFn
  | (_, Handler.cls methods) => methods.lookup (pyLower request.method)
  | (method, Handler.function body) =>
      if request.method ≠ method.value then none else some body
  | (_, Handler.other body) => some body

/-- `dispatchEntry` invokes exactly the callable `resolveHandler` picks. -/
theorem dispatchEntry_resolved {app : App} {request : Request} {response : Response}
    {entry : HTTPMethods × Handler} {kwargs : Params} {body : HandlerFn}
    (h : resolveHandler request entry = some body) :
    dispatchEntry app request response entry kwargs =
      runGuarded app request body response kwargs := by
  obtain ⟨method, handler⟩ := entry
  cases handler with
  | cls methods =>
      simp only [resolveHandler] at h
      simp [dispatchEntry, h]
  | function b =>
      simp only [resolveHandler] at h
      by_cases hm : request.method ≠ method.value
      · simp [hm] at h
      · simp [hm] at h
        simp [dispatchEntry, hm, h]
  | other b =>
      simp only [resolveHandler, Option.some.injEq] at h
      simp [dispatchEntry, h]

/-- Claim C5: a request whose path matches no registered pattern yields
status 404 with body "Not Found" (the status name with underscores
replaced by spaces and title-cased), for every route table including the
empty one. -/
theorem spec_C5_unmatched_404 (app : App) (request : Request)
    (h : ∀ r ∈ app.routes, matchSegs r.pattern request.path = none) :
    handle_request app request =
      { status_code := 404, text := some "Not Found" } := by
  unfold handle_request
  rw [find_handler_eq_none h]
  show handle_404 Response.init = _
  decide

/-- Witness for C5: the empty route table misses on `/nowhere`. -/
theorem spec_C5_unmatched_404_witness :
    handle_request { routes := [], exception_handler := none }
        { method := "GET", path := ["nowhere"] } =
      { status_code := 404, text := some "Not Found" } :=
  spec_C5_unmatched_404 _ _ (by intro r hr; cases hr)

/-- Claim C6: `find_handler` scans the registered routes in registration
order and returns the first whose pattern matches, together with its named
parameters — first-match-wins, regardless of any later matching routes. -/
theorem spec_C6_first_match_wins (pre post : List Route) (r : Route)
    (request : Request) (params : Params)
    (hpre : ∀ r2 ∈ pre, matchSegs r2.pattern request.path = none)
    (hr : matchSegs r.pattern request.path = some params) :
    find_handler (pre ++ r :: post) request =
      some ((r.method, r.handler), params) := by
  induction pre with
  | nil => simpa using find_handler_cons_match hr
  | cons p rest ih =>
      rw [List.cons_append,
        find_handler_cons_skip (hpre p (List.mem_cons_self p rest))]
      exact ih fun r2 hr2 => hpre r2 (List.mem_cons_of_mem p hr2)

/-- Handler used by the C6 witness: sets the response text to its name. -/
def namedHandler (s : String) : Handler :=
  Handler.other fun _ resp _ => ({ resp with text := some s }, none)

/-- Witness for C6: two routes match `/dup`; the earlier-registered one is
returned and dispatched. -/
theorem spec_C6_first_match_wins_witness :
    find_handler
        [{ pattern := [Segment.lit "other"], method := HTTPMethods.GET,
           handler := namedHandler "zero" },
         { pattern := [Segment.lit "dup"], method := HTTPMethods.GET,
           handler := namedHandler "one" },
         { pattern := [Segment.param "x"], method := HTTPMethods.GET,
           handler := namedHandler "two" }]
        { method := "GET", path := ["dup"] } =
      some ((HTTPMethods.GET, namedHandler "one"), []) := by
  have h := spec_C6_first_match_wins
    [{ pattern := [Segment.lit "other"], method := HTTPMethods.GET,
       handler := namedHandler "zero" }]
    [{ pattern := [Segment.param "x"], method := HTTPMethods.GET,
       handler := namedHandler "two" }]
    { pattern := [Segment.lit "dup"], method := HTTPMethods.GET,
      handler := namedHandler "one" }
    { method := "GET", path := ["dup"] } []
    (by intro r2 hr2; simp at hr2; subst hr2; decide)
    (by decide)
  simpa using h

/-- Claim C7: registering a pattern that is already a key of the route
table fails with the duplicate-route error for every method — via
`add_route` itself and via both decorator forms — and never yields an
updated table. -/
theorem spec_C7_duplicate_route_rejected (routes : List Route)
    (p : List Segment) (h : Handler) (m : HTTPMethods)
    (hdup : ∃ r ∈ routes, r.pattern = p) :
    add_route routes p h m =
      Except.error ("Route " ++ renderPattern p ++ " is already registered.")
    ∧ route_decorator routes p h =
      Except.error ("Route " ++ renderPattern p ++ " is already registered.")
    ∧ method_decorator m routes p h =
      Except.error ("Route " ++ renderPattern p ++ " is already registered.")
    ∧ ∀ routes2, add_route routes p h m ≠ Except.ok routes2 := by
  have hany : routes.any (fun r => r.pattern = p) = true := by
    obtain ⟨r, hr, hp⟩ := hdup
    exact List.any_eq_true.mpr ⟨r, hr, by simp [hp]⟩
  have herr : ∀ m2 : HTTPMethods, add_route routes p h m2 =
      Except.error ("Route " ++ renderPattern p ++ " is already registered.") := by
    intro m2
    simp [add_route, hany]
  exact ⟨herr m, herr HTTPMethods.GET, herr m,
    fun routes2 hok => by rw [herr m] at hok; cases hok⟩

/-- Witness for C7: re-registering `/home` (originally `GET`) as `POST`
fails and produces no table. -/
theorem spec_C7_duplicate_route_rejected_witness :
    add_route
        [{ pattern := [Segment.lit "home"], method := HTTPMethods.GET,
           handler := namedHandler "home" }]
        [Segment.lit "home"] (namedHandler "again") HTTPMethods.POST =
      Except.error "Route /home is already registered." := by
  have h := (spec_C7_duplicate_route_rejected
    [{ pattern := [Segment.lit "home"], method := HTTPMethods.GET,
       handler := namedHandler "home" }]
    [Segment.lit "home"] (namedHandler "again") HTTPMethods.POST
    ⟨_, List.mem_cons_self _ _, rfl⟩).1
  rw [h]
  exact congrArg Except.error (by decide)

/-- The route of the C8 example: `/math/\x7bop\x7d/\x7ba:d\x7d/\x7bb:d\x7d`. -/
def mathRoute : Route :=
  { pattern := [Segment.lit "math", Segment.param "op",
                Segment.paramD "a", Segment.paramD "b"],
    method := HTTPMethods.POST,
    handler := namedHandler "math" }

/-- An application whose only route is `mathRoute`. -/
def mathApp : App := { routes := [mathRoute], exception_handler := none }

/-- The C8 example request: `POST /math/add/x/2`. -/
def mathReq : Request := { method := "POST", path := ["math", "add", "x", "2"] }

/-- Claim C8: a path segment that fails a typed placeholder's conversion
makes the whole pattern fail to match (no error is raised — matching is a
total function into `Option`), the search continues as if that route were
absent, and when no other route matches the dispatch yields the 404
response; in particular `/math/\x7bop\x7d/\x7ba:d\x7d/\x7bb:d\x7d` against
`/math/add/x/2` falls through to 404. -/
theorem spec_C8_typed_param_skip (n s : String) (hs : parseD s = none) :
    (∀ ps rest, matchSegs (Segment.paramD n :: ps) (s :: rest) = none)
    ∧ (∀ pre r post request, matchSegs r.pattern request.path = none →
        find_handler (pre ++ r :: post) request = find_handler (pre ++ post) request)
    ∧ handle_request mathApp mathReq =
        { status_code := 404, text := some "Not Found" } := by
  refine ⟨fun ps rest => by simp [matchSegs, hs], fun pre r post request hfail => ?_, by decide⟩
  induction pre with
  | nil => simpa using find_handler_cons_skip hfail
  | cons p rest2 ih =>
      rw [List.cons_append, List.cons_append]
      cases hp : matchSegs p.pattern request.path with
      | some params =>
          rw [find_handler_cons_match hp, find_handler_cons_match hp]
      | none =>
          rw [find_handler_cons_skip hp, find_handler_cons_skip hp]
          exact ih

/-- Witness for C8: the conversion failure on `"x"` skips the math route
and the request falls through to 404. -/
theorem spec_C8_typed_param_skip_witness :
    matchSegs [Segment.paramD "a"] ["x"] = none
    ∧ handle_request mathApp mathReq =
        { status_code := 404, text := some "Not Found" } :=
  ⟨(spec_C8_typed_param_skip "a" "x" (by decide)).1 [] [],
   (spec_C8_typed_param_skip "a" "x" (by decide)).2.2⟩

/-- Claim C1: when the invoked handler callable raises, dispatch delegates
to the registered exception handler — the result is exactly that
callback's effect on the response, with no further default mutation — and
with no exception handler registered it sets status 500 and body text
`str(e)`; a `Response` is returned in both cases. -/
theorem spec_C1_exception_policy (app : App) (request : Request)
    (entry : HTTPMethods × Handler) (kwargs : Params) (body : HandlerFn)
    (r : Response) (e : String)
    (hfind : find_handler app.routes request = some (entry, kwargs))
    (hres : resolveHandler request entry = some body)
    (hraise : body request Response.init kwargs = (r, some e)) :
    (∀ h, app.exception_handler = some h →
        handle_request app request = h request r e)
    ∧ (app.exception_handler = none →
        handle_request app request =
          { r with status_code := 500, text := some e }) := by
  have hrun : handle_request app request =
      runGuarded app request body Response.init kwargs := by
    unfold handle_request
    rw [hfind]
    exact dispatchEntry_resolved hres
  constructor
  · intro h hh
    rw [hrun]
    unfold runGuarded
    rw [hraise, hh]
  · intro hh
    rw [hrun]
    unfold runGuarded
    rw [hraise, hh]
    rfl

/-- The raising handler used by the C1 witness. -/
def boomHandler : HandlerFn := fun _ resp _ => (resp, some "boom")

/-- The route used by the C1 witness. -/
def boomRoute : Route :=
  { pattern := [Segment.lit "boom"], method := HTTPMethods.GET,
    handler := Handler.other boomHandler }

/-- The custom exception handler used by the C1 witness. -/
def teapotPolicy : Request → Response → String → Response :=
  fun _ resp e => { resp with status_code := 418, text := some ("handled " ++ e) }

/-- Witness for C1: with the teapot policy registered the raised "boom"
becomes a 418; without a policy it becomes a 500 with body "boom". -/
theorem spec_C1_exception_policy_witness :
    handle_request { routes := [boomRoute], exception_handler := some teapotPolicy }
        { method := "GET", path := ["boom"] } =
      { status_code := 418, text := some "handled boom" }
    ∧ handle_request { routes := [boomRoute], exception_handler := none }
        { method := "GET", path := ["boom"] } =
      { status_code := 500, text := some "boom" } :=
  ⟨((spec_C1_exception_policy
      { routes := [boomRoute], exception_handler := some teapotPolicy }
      { method := "GET", path := ["boom"] }
      (HTTPMethods.GET, Handler.other boomHandler) [] boomHandler
      Response.init "boom" rfl rfl rfl).1 teapotPolicy rfl).trans (by decide),
   ((spec_C1_exception_policy
      { routes := [boomRoute], exception_handler := none }
      { method := "GET", path := ["boom"] }
      (HTTPMethods.GET, Handler.other boomHandler) [] boomHandler
      Response.init "boom" rfl rfl rfl).2 rfl).trans (by decide)⟩

/-- Claim C4: on a matched route, a plain-function handler whose
registered method differs from the request method yields 405 "Method Not
Allowed"; a class-based resource with no attribute named by the
lower-cased request method yields the same 405; and for class-based
resources the route's registered method plays no part in the check. -/
theorem spec_C4_method_not_allowed (app : App) (request : Request)
    (m : HTTPMethods) (kwargs : Params) :
    (∀ body, find_handler app.routes request = some ((m, Handler.function body), kwargs) →
        request.method ≠ m.value →
        handle_request app request =
          { status_code := 405, text := some "Method Not Allowed" })
    ∧ (∀ methods, find_handler app.routes request = some ((m, Handler.cls methods), kwargs) →
        methods.lookup (pyLower request.method) = none →
        handle_request app request =
          { status_code := 405, text := some "Method Not Allowed" })
    ∧ (∀ methods m2 resp, dispatchEntry app request resp (m, Handler.cls methods) kwargs
        = dispatchEntry app request resp (m2, Handler.cls methods) kwargs) := by
  refine ⟨fun body hfind hm => ?_, fun methods hfind hlk => ?_, fun methods m2 resp => rfl⟩
  · unfold handle_request
    rw [hfind]
    simp [dispatchEntry, hm]
    rfl
  · unfold handle_request
    rw [hfind]
    simp [dispatchEntry, hlk]
    rfl

/-- The class-based resource of the C4 witness: it only defines `get`. -/
def booksResource : List (String × HandlerFn) :=
  [("get", fun _ resp _ => ({ resp with text := some "books" }, none))]

/-- The route table of the C4 witness: a function handler registered for
`GET /hello` and a class-based resource at `/books`. -/
def c4Routes : List Route :=
  [{ pattern := [Segment.lit "hello"], method := HTTPMethods.GET,
     handler := Handler.function fun _ resp _ => ({ resp with text := some "hi" }, none) },
   { pattern := [Segment.lit "books"], method := HTTPMethods.GET,
     handler := Handler.cls booksResource }]

/-- Witness for C4: `POST /hello` on the function route and
`DELETE /books` on the resource route both answer 405, and swapping the
registered method of a class-based entry does not change the dispatch. -/
theorem spec_C4_method_not_allowed_witness :
    handle_request { routes := c4Routes, exception_handler := none }
        { method := "POST", path := ["hello"] } =
      { status_code := 405, text := some "Method Not Allowed" }
    ∧ handle_request { routes := c4Routes, exception_handler := none }
        { method := "DELETE", path := ["books"] } =
      { status_code := 405, text := some "Method Not Allowed" }
    ∧ dispatchEntry { routes := c4Routes, exception_handler := none }
        { method := "DELETE", path := ["books"] } Response.init
        (HTTPMethods.GET, Handler.cls booksResource) []
      = dispatchEntry { routes := c4Routes, exception_handler := none }
        { method := "DELETE", path := ["books"] } Response.init
        (HTTPMethods.POST, Handler.cls booksResource) [] :=
  ⟨(spec_C4_method_not_allowed { routes := c4Routes, exception_handler := none }
      { method := "POST", path := ["hello"] } HTTPMethods.GET []).1
      _ rfl (by decide),
   (spec_C4_method_not_allowed { routes := c4Routes, exception_handler := none }
      { method := "DELETE", path := ["books"] } HTTPMethods.GET []).2.1
      booksResource rfl rfl,
   (spec_C4_method_not_allowed { routes := c4Routes, exception_handler := none }
      { method := "DELETE", path := ["books"] } HTTPMethods.GET []).2.2
      booksResource HTTPMethods.POST Response.init⟩

/-- Claim C9: a registered handler that is callable but neither a class
nor a plain function (a bound method, a `functools.partial`, a callable
instance) is invoked directly for every request method, with no 405
method check at all. -/
theorem spec_C9_uncategorized_callable (app : App) (request : Request)
    (m : HTTPMethods) (body : HandlerFn) (kwargs : Params) :
    (∀ resp, dispatchEntry app request resp (m, Handler.other body) kwargs
        = runGuarded app request body resp kwargs)
    ∧ (find_handler app.routes request = some ((m, Handler.other body), kwargs) →
        handle_request app request = runGuarded app request body Response.init kwargs) := by
  refine ⟨fun resp => rfl, fun hfind => ?_⟩
  unfold handle_request
  rw [hfind]
  rfl

/-- The handler of the C9 witness, standing for a callable that is
neither a class nor a plain function. -/
def partialHandler : HandlerFn :=
  fun _ resp _ => ({ resp with text := some "partial ran" }, none)

/-- Witness for C9: a `DELETE` request reaches the `Handler.other`
callable registered under `GET /p` — no 405 is produced. -/
theorem spec_C9_uncategorized_callable_witness :
    handle_request
        { routes := [{ pattern := [Segment.lit "p"], method := HTTPMethods.GET,
                       handler := Handler.other partialHandler }],
          exception_handler := none }
        { method := "DELETE", path := ["p"] } =
      { status_code := 200, text := some "partial ran" } :=
  ((spec_C9_uncategorized_callable
      { routes := [{ pattern := [Segment.lit "p"], method := HTTPMethods.GET,
                     handler := Handler.other partialHandler }],
        exception_handler := none }
      { method := "DELETE", path := ["p"] }
      HTTPMethods.GET partialHandler []).2 rfl).trans (by decide)

/-- Claim C2: with layers added in order M1 then M2, a dispatched request
observes exactly `M2.process_request`, `M1.process_request`, the handler,
`M1.process_response`, `M2.process_response` — last-added runs first on
the way in and last on the way out. -/
theorem spec_C2_middleware_order (M1 M2 : MWLayer)
    (core : Request → List Event × Response) (request : Request)
    (hcore : ∀ q, (core q).1 = [Event.handlerCall]) :
    (runMW core (buildChain [M1, M2]) request).1 =
      [Event.procReq M2.name, Event.procReq M1.name, Event.handlerCall,
       Event.procResp M1.name, Event.procResp M2.name] := by
  simp [buildChain, MWChain.add, runMW, hcore]

/-- A no-effect middleware layer with the given name, for witnesses. -/
def plainLayer (s : String) : MWLayer :=
  { name := s,
    process_request := fun request => request,
    process_response_effect := fun _ resp => resp,
    process_response_ret := fun _ _ => none }

/-- Witness for C2: two concrete inert layers around a core that runs the
handler produce the onion-ordered trace. -/
theorem spec_C2_middleware_order_witness :
    (runMW (fun _ => ([Event.handlerCall], Response.init))
        (buildChain [plainLayer "M1", plainLayer "M2"])
        { method := "GET", path := [] }).1 =
      [Event.procReq "M2", Event.procReq "M1", Event.handlerCall,
       Event.procResp "M1", Event.procResp "M2"] :=
  spec_C2_middleware_order (plainLayer "M1") (plainLayer "M2")
    (fun _ => ([Event.handlerCall], Response.init))
    { method := "GET", path := [] } (fun _ => rfl)

/-- The inner response produced by the core in the C3 counterexample. -/
def cx3Inner : Response := { status_code := 200, text := some "inner" }

/-- The replacement response returned (and ignored) by `process_response`
in the C3 counterexample. -/
def cx3Replacement : Response := { status_code := 200, text := some "replaced" }

/-- A layer whose `process_response` performs no in-place mutation but
returns a brand-new response object. -/
def cx3Layer : MWLayer :=
  { name := "M",
    process_request := fun request => request,
    process_response_effect := fun _ resp => resp,
    process_response_ret := fun _ _ => some cx3Replacement }

/-- Counterexample to C3 as stated: the layer's `process_response` returns
`cx3Replacement`, yet the response passed outward is the inner chain's
`cx3Inner` — `Middleware.handle_request` discards the return value of
`process_response` and returns the original response object. -/
theorem spec_C3_counterexample :
    (runMW (fun _ => ([Event.handlerCall], cx3Inner))
        (MWChain.layer cx3Layer MWChain.core)
        { method := "GET", path := [] }).2 = cx3Inner
    ∧ (runMW (fun _ => ([Event.handlerCall], cx3Inner))
        (MWChain.layer cx3Layer MWChain.core)
        { method := "GET", path := [] }).2 ≠ cx3Replacement :=
  ⟨rfl, by decide⟩

/-- Claim C3 as amended: the return value of `process_response` is
ignored — two layers differing only in that return value produce
identical traces and responses, and the response a layer passes outward
is always the (possibly in-place mutated) response of the inner chain,
never the returned replacement. -/
theorem spec_C3_amended_response_ret_ignored (s : String)
    (pr : Request → Request) (eff : Request → Response → Response)
    (ret1 ret2 : Request → Response → Option Response) (next : MWChain)
    (core : Request → List Event × Response) (request : Request) :
    runMW core (MWChain.layer ⟨s, pr, eff, ret1⟩ next) request
      = runMW core (MWChain.layer ⟨s, pr, eff, ret2⟩ next) request
    ∧ (runMW core (MWChain.layer ⟨s, pr, eff, ret1⟩ next) request).2
      = eff (pr request) (runMW core next (pr request)).2 :=
  ⟨rfl, rfl⟩

/-- Claim C10: `Table._get_select_where_sql` (whose SQL `Database.get`
executes verbatim) joins the `key = ?` filter conditions of the WHERE
clause with `", "` — a comma, not `" AND "` — whenever two or more filter
keyword arguments are supplied. -/
theorem spec_C10_where_comma_join (t : TableSchema)
    (kwargs : List (String × String)) (hlen : 2 ≤ kwargs.length) :
    Database.get_sql t kwargs =
      "SELECT " ++ pyJoin ", " (selectFields t) ++ " FROM " ++ t.name
        ++ " WHERE " ++ pyJoin ", " (kwargs.map fun kv => kv.1 ++ " = ?") ++ ";"
    ∧ ∀ k1 v1 k2 v2 rest, kwargs = (k1, v1) :: (k2, v2) :: rest →
        Database.get_sql t kwargs =
          "SELECT " ++ pyJoin ", " (selectFields t) ++ " FROM " ++ t.name
            ++ " WHERE " ++ (k1 ++ " = ?" ++ ", "
            ++ pyJoin ", " (((k2, v2) :: rest).map fun kv => kv.1 ++ " = ?")) ++ ";" := by
  refine ⟨rfl, fun k1 v1 k2 v2 rest hk => ?_⟩
  subst hk
  simp only [Database.get_sql, _get_select_where_sql, List.map_cons, pyJoin]

/-- The demo table of the C10 witness: class `person` with a single
column `age` (plus the implicit `id`). -/
def personTable : TableSchema :=
  { name := "person", members := [("age", FieldKind.column)] }

/-- Witness for C10: two filters produce `age = ?, name = ?` — joined by
a comma — in the WHERE clause. -/
theorem spec_C10_where_comma_join_witness :
    Database.get_sql personTable [("age", "30"), ("name", "bob")] =
      "SELECT id, age FROM person WHERE age = ?, name = ?;" :=
  ((spec_C10_where_comma_join personTable [("age", "30"), ("name", "bob")]
      (by decide)).1).trans (by decide)
